import Mathlib

/-
Verification of the volumetric-reconstruction solver components of this
repository against their specification.

The development shallowly embeds the Python sources:
  - volumetricreconstruction/reconstruction/solver/ADMMSolver.py
  - GettingStarted/MyImageProcessingFunctions.py (the resampling routine)
Machine floats are embedded as exact rationals, numpy arrays as lists or
index functions, and Python object attributes as structure fields.  Parts of
the program that live outside the provided sources (the shared Solver base
class and the external numericalsolver package) are modelled from the spec;
each such definition carries a doc comment starting with: Modelled from the
spec.
-/

namespace NiftyMIC

/-- Flattened intensity vector (a numpy array flattened to a list of reals). -/
abbrev Vec := List ℚ

/-- One 2D slice: the sizes of its intensity array and of its binary mask.
Only the sizes matter for the geometry validation modelled here. -/
structure Slice where
  dataSize : ℕ
  maskSize : ℕ
deriving DecidableEq

/-- An ordered sequence of slices sharing acquisition parameters. -/
structure Stack where
  slices : List Slice
deriving DecidableEq

/-- Geometry of the reconstruction grid; `spacing` lists the voxel spacing
per axis (three entries for a 3D grid). -/
structure ReconGrid where
  spacing : List ℚ
deriving DecidableEq

/-- The reconstruction volume object.  `objId` models Python object
identity, `content` the flattened voxel intensities stored in the wrapped
itk/sitk image.  Attribute assignment in the source replaces `content`
(and keeps `objId`); rebinding the attribute that holds the object would
change `objId`. -/
structure ReconVolume where
  objId : ℕ
  grid : ReconGrid
  content : Vec
deriving DecidableEq

/-- State of an `ADMMSolver` instance: the fields stored by
`ADMMSolver.__init__` (`rho`, `iterations`) together with the shared solver
state held by the `Solver` base class (stacks, reconstruction volume, alpha,
iter_max, minimizer, data-loss shape, verbosity; the base class is not among
the provided sources, so its state is modelled from the spec, section 4.3).
`residual_ell2` is the statistics field written by `compute_statistics`.
The PSF-related constructor arguments (`alpha_cut`, `deconvolution_mode`,
`predefined_covariance`) only influence the construction of the acquisition
operators, which this embedding abstracts as a builder function, so they are
not carried in the state. -/
structure ADMMSolverState where
  stacks' : List Stack
  reconstruction : ReconVolume
  alpha : ℚ
  iter_max : ℕ
  minimizer : String
  data_loss : String
  verbose : Bool
  rho : ℚ
  iterations : ℕ
  residual_ell2 : Option ℚ
deriving DecidableEq

/-- `ADMMSolver.__init__`: stores `rho` and `iterations` and forwards the
shared parameters to the base class.  A fresh instance has no statistics. -/
def ADMMSolver.init (stacks' : List Stack) (reconstruction : ReconVolume)
    (alpha : ℚ) (iter_max : ℕ) (minimizer : String) (data_loss : String)
    (verbose : Bool) (rho : ℚ) (iterations : ℕ) : ADMMSolverState :=
  { stacks' := stacks'
    reconstruction := reconstruction
    alpha := alpha
    iter_max := iter_max
    minimizer := minimizer
    data_loss := data_loss
    verbose := verbose
    rho := rho
    iterations := iterations
    residual_ell2 := none }

/-- `ADMMSolver.set_rho` (source line 97). -/
def set_rho (rho : ℚ) (s : ADMMSolverState) : ADMMSolverState :=
  { s with rho := rho }

/-- `ADMMSolver.get_rho` (source line 102). -/
def get_rho (s : ADMMSolverState) : ℚ :=
  s.rho

/-- `ADMMSolver.set_iterations` (source line 111). -/
def set_iterations (iterations : ℕ) (s : ADMMSolverState) : ADMMSolverState :=
  { s with iterations := iterations }

/-- `ADMMSolver.get_iterations` (source line 116). -/
def get_iterations (s : ADMMSolverState) : ℕ :=
  s.iterations

/-- Modelled from the spec: `Solver.set_alpha`, a pure setter of the shared
base class (spec section 4.3), which is not among the provided sources. -/
def set_alpha (a : ℚ) (s : ADMMSolverState) : ADMMSolverState :=
  { s with alpha := a }

/-- Modelled from the spec: `Solver.set_iter_max`, a pure setter of the
shared base class (spec section 4.3), not among the provided sources. -/
def set_iter_max (n : ℕ) (s : ADMMSolverState) : ADMMSolverState :=
  { s with iter_max := n }

/-- Modelled from the spec: `Solver.get_x0` of the base class (not among the
provided sources).  The reconstruction volume acts as both initial value and
output buffer (spec sections 4.3 and the warm-start requirement), so the
initial iterate is the flattened content of the current reconstruction. -/
def get_x0 (s : ADMMSolverState) : Vec :=
  s.reconstruction.content

/-- The argument record of `numericalsolver.ADMMLinearSolver` exactly as it
is filled in by `ADMMSolver._run_reconstruction` (source lines 190 to 204).
Operators are embedded as functions on flattened vectors. -/
structure ADMMLinearSolverConfig where
  dimension : ℕ
  A : Vec → Vec
  A_adj : Vec → Vec
  B : Vec → Vec
  B_adj : Vec → Vec
  b : Vec
  x0 : Vec
  x_scale : Option ℚ
  alpha : ℚ
  data_loss : String
  minimizer : String
  iter_max : ℕ
  rho : ℚ
  iterations : ℕ
  verbose : Bool

/-- The inner-solver argument record built by `_run_reconstruction`
(source lines 172 to 204).  `Abuild` abstracts the base-class construction
of the acquisition operators `get_A`, `get_A_adj` and of the stacked slice
data `get_b` (not among the provided sources); `gradBuild` abstracts
`linop.LinearOperators3D(spacing).get_gradient_operators()` composed with
the reshape/flatten wrappers `B`, `B_adj` of lines 186 to 187 (external
package).  Mirroring the source: `x0` is read from the current
reconstruction, `x_scale := x0.max()` (line 177; `none` models the numpy
error on an empty array), `data_loss` is the literal `"linear"` and
`minimizer` the literal `"lsmr"` (lines 198 to 199). -/
def runRecConfig (Abuild : ADMMSolverState → ((Vec → Vec) × (Vec → Vec) × Vec))
    (gradBuild : List ℚ → ((Vec → Vec) × (Vec → Vec)))
    (s : ADMMSolverState) : ADMMLinearSolverConfig :=
  let A := (Abuild s).1
  let A_adj := (Abuild s).2.1
  let b := (Abuild s).2.2
  let x0 := get_x0 s
  let x_scale := x0.max?
  let g := gradBuild s.reconstruction.grid.spacing
  { dimension := 3
    A := A
    A_adj := A_adj
    B := g.1
    B_adj := g.2
    b := b
    x0 := x0
    x_scale := x_scale
    alpha := s.alpha
    data_loss := "linear"
    minimizer := "lsmr"
    iter_max := s.iter_max
    rho := s.rho
    iterations := s.iterations
    verbose := s.verbose }

/-- `ADMMSolver._run_reconstruction` (source lines 168 to 214): build the
inner-solver arguments, run the inner solver (abstracted as `innerSolve`,
the external `ADMMLinearSolver.run` followed by `get_x`), and write the
result back into the existing reconstruction volume object (lines 210 to
214 assign the `itk`/`sitk` attributes of `self._reconstruction`; the
geometry is taken from the existing image, so `objId` and `grid` are
untouched and only `content` is replaced). -/
def run_reconstruction
    (Abuild : ADMMSolverState → ((Vec → Vec) × (Vec → Vec) × Vec))
    (gradBuild : List ℚ → ((Vec → Vec) × (Vec → Vec)))
    (innerSolve : ADMMLinearSolverConfig → Vec)
    (s : ADMMSolverState) : ADMMSolverState :=
  let cfg := runRecConfig Abuild gradBuild s
  { s with reconstruction := { s.reconstruction with content := innerSolve cfg } }

/-- The error taxonomy of spec section 7. -/
inductive SolverError where
  | DimensionMismatchError
  | InvalidGeometryError
  | UnsupportedConfigurationError
deriving DecidableEq

/-- Some slice carries a mask whose size does not match its data array. -/
def maskMismatch (s : ADMMSolverState) : Bool :=
  s.stacks'.any (fun st => st.slices.any (fun sl => sl.maskSize ≠ sl.dataSize))

/-- Some axis of the reconstruction grid has non-positive spacing. -/
def spacingNonPositive (s : ADMMSolverState) : Bool :=
  s.reconstruction.grid.spacing.any (fun h => decide (h ≤ 0))

/-- Modelled from the spec: the validation performed at the start of
`Solver.run` (base class, not among the provided sources; spec sections 4.1
and 7): a slice mask size that does not match its slice array size yields
`DimensionMismatchError`; a reconstruction grid with non-positive spacing
yields `InvalidGeometryError`.  `UnsupportedConfigurationError` belongs to
the Tikhonov minimizer/data-loss check of section 4.4 and has no trigger on
the ADMM path, whose inner loss and minimizer are fixed. -/
def validate (s : ADMMSolverState) : Option SolverError :=
  if maskMismatch s then some SolverError.DimensionMismatchError
  else if spacingNonPositive s then some SolverError.InvalidGeometryError
  else none

/-- Modelled from the spec: `Solver.run` of the base class (not among the
provided sources): validate the configuration and geometry first, failing
fast before any operator is built, then execute `_run_reconstruction`. -/
def run (Abuild : ADMMSolverState → ((Vec → Vec) × (Vec → Vec) × Vec))
    (gradBuild : List ℚ → ((Vec → Vec) × (Vec → Vec)))
    (innerSolve : ADMMLinearSolverConfig → Vec)
    (s : ADMMSolverState) : Except SolverError ADMMSolverState :=
  match validate s with
  | some e => Except.error e
  | none => Except.ok (run_reconstruction Abuild gradBuild innerSolve s)

/-- Elementwise difference of two flattened vectors. -/
def vecSub (u v : Vec) : Vec :=
  List.zipWith (fun a b => a - b) u v

/-- Sum of squares of a flattened vector. -/
def sumSq (u : Vec) : ℚ :=
  (u.map (fun q => q * q)).sum

/-- Modelled from the spec: `Solver._get_residual_ell2` of the base class
(not among the provided sources), the data residual norm of spec section
4.3 recomputed at a given iterate.  The norm is represented by its square,
a strictly monotone image that keeps the value rational. -/
def get_residual_ell2 (A : Vec → Vec) (b : Vec) (x : Vec) : ℚ :=
  sumSq (vecSub (A x) b)

/-- `ADMMSolver.compute_statistics` (source lines 120 to 125): read the
current reconstruction volume, recompute the data residual at it, and store
the result in the statistics field. -/
def compute_statistics (A : Vec → Vec) (b : Vec)
    (s : ADMMSolverState) : ADMMSolverState :=
  { s with residual_ell2 := some (get_residual_ell2 A b s.reconstruction.content) }

/-- Decimal digits of the fractional part `r / d`, most significant first,
stopping when the remainder vanishes (bounded by the fuel). -/
def decDigits : ℕ → ℕ → ℕ → List Char
  | 0, _, _ => []
  | _ + 1, 0, _ => []
  | fuel + 1, r, d => Nat.digitChar ((r * 10) / d) :: decDigits fuel ((r * 10) % d) d

/-- Modelled rendering of a Python float by `str`: sign, integer part, a
dot, and the fractional digits (`"0"` when the value is integral), exact
for the decimal values exchanged with the solver. -/
def pyFloatStr (q : ℚ) : String :=
  let sign := if q < 0 then "-" else ""
  let n := q.num.natAbs
  let d := q.den
  let ip := n / d
  let frac := decDigits 30 (n % d) d
  let fracStr := if frac.isEmpty then "0" else String.mk frac
  sign ++ toString ip ++ "." ++ fracStr

/-- Python's `filename.replace(".", "p")`: with a one-character pattern and
a one-character replacement this is a character map. -/
def pyReplaceDotP (s : String) : String :=
  String.mk (s.data.map (fun c => if c = '.' then 'p' else c))

/-- `ADMMSolver.get_setting_specific_filename` (source lines 137 to 154):
concatenate the prefix, the stack count, the `_ADMM_TV` tag when alpha is
positive, the minimizer, alpha, iter_max, rho and the ADMM iteration count,
then replace every dot by `p`.  The source defaults the prefix argument to
`"SRR_"`; here it is passed explicitly. -/
def get_setting_specific_filename (s : ADMMSolverState) (pre : String) : String :=
  pyReplaceDotP
    (pre ++ "stacks" ++ toString s.stacks'.length
      ++ (if 0 < s.alpha then "_ADMM" ++ "_TV" else "")
      ++ "_" ++ s.minimizer
      ++ "_alpha" ++ pyFloatStr s.alpha
      ++ "_itermax" ++ toString s.iter_max
      ++ "_rho" ++ pyFloatStr s.rho
      ++ "_ADMMiterations" ++ toString s.iterations)

/-- The minimizer string is unchanged by the dot replacement. -/
def noDot (m : String) : Prop :=
  '.' ∉ m.data

instance (m : String) : Decidable (noDot m) := by
  unfold noDot
  infer_instance

/-- Modelled from the spec: axis-1 channel of the discrete gradient of the
external `numericalsolver.LinearOperators` package (spec section 4.2):
forward finite difference scaled by the physical spacing, with a zero
difference at the last voxel of the axis (Neumann boundary).  Volumes are
indexed as functions of the three voxel indices; entries outside the grid
are never consulted by the weighted inner products below. -/
def grad1 (n₁ : ℕ) (h₁ : ℚ) (x : ℕ → ℕ → ℕ → ℚ) : ℕ → ℕ → ℕ → ℚ :=
  fun i j k => if i + 1 < n₁ then (x (i + 1) j k - x i j k) / h₁ else 0

/-- Modelled from the spec: axis-2 channel of the discrete gradient. -/
def grad2 (n₂ : ℕ) (h₂ : ℚ) (x : ℕ → ℕ → ℕ → ℚ) : ℕ → ℕ → ℕ → ℚ :=
  fun i j k => if j + 1 < n₂ then (x i (j + 1) k - x i j k) / h₂ else 0

/-- Modelled from the spec: axis-3 channel of the discrete gradient. -/
def grad3 (n₃ : ℕ) (h₃ : ℚ) (x : ℕ → ℕ → ℕ → ℚ) : ℕ → ℕ → ℕ → ℚ :=
  fun i j k => if k + 1 < n₃ then (x i j (k + 1) - x i j k) / h₃ else 0

/-- Modelled from the spec: the three-channel gradient operator. -/
def gradient (n₁ n₂ n₃ : ℕ) (h₁ h₂ h₃ : ℚ) (x : ℕ → ℕ → ℕ → ℚ) :
    (ℕ → ℕ → ℕ → ℚ) × (ℕ → ℕ → ℕ → ℚ) × (ℕ → ℕ → ℕ → ℚ) :=
  (grad1 n₁ h₁ x, grad2 n₂ h₂ x, grad3 n₃ h₃ x)

/-- Modelled from the spec: adjoint of the axis-1 channel, the negative
backward difference with the boundary handling matching `grad1`. -/
def grad1_adj (n₁ : ℕ) (h₁ : ℚ) (z : ℕ → ℕ → ℕ → ℚ) : ℕ → ℕ → ℕ → ℚ :=
  fun i j k =>
    ((if 1 ≤ i then z (i - 1) j k else 0) - (if i + 1 < n₁ then z i j k else 0)) / h₁

/-- Modelled from the spec: adjoint of the axis-2 channel. -/
def grad2_adj (n₂ : ℕ) (h₂ : ℚ) (z : ℕ → ℕ → ℕ → ℚ) : ℕ → ℕ → ℕ → ℚ :=
  fun i j k =>
    ((if 1 ≤ j then z i (j - 1) k else 0) - (if j + 1 < n₂ then z i j k else 0)) / h₂

/-- Modelled from the spec: adjoint of the axis-3 channel. -/
def grad3_adj (n₃ : ℕ) (h₃ : ℚ) (z : ℕ → ℕ → ℕ → ℚ) : ℕ → ℕ → ℕ → ℚ :=
  fun i j k =>
    ((if 1 ≤ k then z i j (k - 1) else 0) - (if k + 1 < n₃ then z i j k else 0)) / h₃

/-- Modelled from the spec: the gradient adjoint, the negative divergence,
summing the per-channel adjoints (spec section 4.2). -/
def gradient_adjoint (n₁ n₂ n₃ : ℕ) (h₁ h₂ h₃ : ℚ)
    (z₁ z₂ z₃ : ℕ → ℕ → ℕ → ℚ) : ℕ → ℕ → ℕ → ℚ :=
  fun i j k =>
    grad1_adj n₁ h₁ z₁ i j k + grad2_adj n₂ h₂ z₂ i j k + grad3_adj n₃ h₃ z₃ i j k

/-- Sum of a voxel function over the grid. -/
def tripleSum (n₁ n₂ n₃ : ℕ) (f : ℕ → ℕ → ℕ → ℚ) : ℚ :=
  ∑ i in Finset.range n₁, ∑ j in Finset.range n₂, ∑ k in Finset.range n₃, f i j k

/-- The discrete voxel-volume-weighted inner product on volumes. -/
def innerX (n₁ n₂ n₃ : ℕ) (vol : ℚ) (x y : ℕ → ℕ → ℕ → ℚ) : ℚ :=
  vol * tripleSum n₁ n₂ n₃ (fun i j k => x i j k * y i j k)

/-- The matching weighted inner product on three-channel gradient fields. -/
def innerZ (n₁ n₂ n₃ : ℕ) (vol : ℚ)
    (u : (ℕ → ℕ → ℕ → ℚ) × (ℕ → ℕ → ℕ → ℚ) × (ℕ → ℕ → ℕ → ℚ))
    (w : (ℕ → ℕ → ℕ → ℚ) × (ℕ → ℕ → ℕ → ℚ) × (ℕ → ℕ → ℕ → ℚ)) : ℚ :=
  vol * (tripleSum n₁ n₂ n₃ (fun i j k => u.1 i j k * w.1 i j k)
    + tripleSum n₁ n₂ n₃ (fun i j k => u.2.1 i j k * w.2.1 i j k)
    + tripleSum n₁ n₂ n₃ (fun i j k => u.2.2 i j k * w.2.2 i j k))

/-- A 2D image: its shape and its pixel intensities (row, column). -/
structure Image2D where
  rows : ℕ
  cols : ℕ
  px : ℕ → ℕ → ℚ

/-- The two rows of the homogeneous 2D transformation matrix that the
resampling routine applies to pixel coordinates: the mapped position is
`(a i + b j + c, d i + e j + f)`; the matrix's third row is computed by the
source but never read. -/
structure Transform2D where
  a : ℚ
  b : ℚ
  c : ℚ
  d : ℚ
  e : ℚ
  f : ℚ

/-- numpy's `np.round` on a real position: round half to even.  Computed on
the numerator and denominator: with `fl` the floor and `rem` the remainder
of `num / den`, the fractional part `rem / den` is compared with one half
through `2 * rem` versus `den`. -/
def npRound (q : ℚ) : ℤ :=
  let den : ℤ := (q.den : ℤ)
  let fl := Int.fdiv q.num den
  let rem := q.num - fl * den
  if 2 * rem < den then fl
  else if den < 2 * rem then fl + 1
  else if fl % 2 = 0 then fl else fl + 1

/-- The coordinate clamping of the fast path (source lines 237 to 246): a
rounded coordinate below zero or at least the shape is set to index 0. -/
def clampIdx (n : ℕ) (z : ℤ) : ℕ :=
  if z < 0 ∨ (n : ℤ) ≤ z then 0 else z.toNat

/-- Row-major flat access, `floating.ravel()[idx]` (source lines 248 to 254). -/
def ravel (img : Image2D) (idx : ℕ) : ℚ :=
  img.px (idx / img.cols) (idx % img.cols)

/-- The executed branch of `resampling` (source lines 216 to 256:
`order == 0` with `flag_fast_computation = 1`): map each reference pixel
`(i, j)` through the transformation, round with `np.round`, clamp each
out-of-range coordinate to 0, and read the floating image at the resulting
row-major flat index.  The result is reshaped to the reference shape, so
only indices `i < reference.rows`, `j < reference.cols` are produced; the
`padding` argument of the source is never consulted on this path. -/
def resampling_order0_fast (reference floating : Image2D) (T : Transform2D) :
    ℕ → ℕ → ℚ :=
  fun i j =>
    let p0 : ℚ := T.a * (i : ℚ) + T.b * (j : ℚ) + T.c
    let p1 : ℚ := T.d * (i : ℚ) + T.e * (j : ℚ) + T.f
    let r := clampIdx floating.rows (npRound p0)
    let c := clampIdx floating.cols (npRound p1)
    ravel floating (c + r * floating.cols)

/-- A small valid solver state used to instantiate the theorems below: one
stack of one slice with matching mask and data sizes, a positive-spacing
grid, and simple integral values for the numeric parameters. -/
def cState : ADMMSolverState :=
  ADMMSolver.init [⟨[⟨9, 9⟩]⟩] ⟨0, ⟨[1, 1, 1]⟩, [2, 1]⟩
    1 10 "lsmr" "linear" false 2 10

/-- An invalid state: the slice mask size differs from the slice data size. -/
def cBadMaskState : ADMMSolverState :=
  { cState with stacks' := [⟨[⟨9, 4⟩]⟩] }

/-- An invalid state: one grid axis has spacing zero. -/
def cBadSpacingState : ADMMSolverState :=
  { cState with reconstruction := ⟨0, ⟨[0, 1, 1]⟩, [2, 1]⟩ }

/-- A concrete operator builder for instantiating the run theorems. -/
def cAbuild : ADMMSolverState → ((Vec → Vec) × (Vec → Vec) × Vec) :=
  fun _ => (id, id, [1, 1])

/-- A concrete gradient-operator builder for instantiating the theorems. -/
def cGradBuild : List ℚ → ((Vec → Vec) × (Vec → Vec)) :=
  fun _ => (id, id)

/-- A concrete inner solver whose output visibly depends on its `x0`. -/
def cInnerSolve : ADMMLinearSolverConfig → Vec :=
  fun cfg => cfg.x0.map (fun q => q + 1)

/-- A state whose minimizer string contains a literal dot. -/
def fnameState1 : ADMMSolverState :=
  { cState with minimizer := "ls.mr" }

/-- A state whose minimizer string has the letter p where `fnameState1` has
the dot; every other parameter agrees with `fnameState1`. -/
def fnameState2 : ADMMSolverState :=
  { cState with minimizer := "lspmr" }

/-- A state with a dot-free minimizer different from the one of `cState`. -/
def fnameState3 : ADMMSolverState :=
  { cState with minimizer := "nlcg" }

/-- A state equal to `cState` on every reconstruction parameter but
differing in the verbosity flag and the cached statistics. -/
def fnameState4 : ADMMSolverState :=
  { cState with verbose := true, residual_ell2 := some 0 }

/-- A one-pixel reference image fixing the output shape. -/
def cexRef : Image2D :=
  ⟨1, 1, fun _ _ => 0⟩

/-- A 2 by 2 floating image with intensity 7 at pixel (0,0) and 1 elsewhere. -/
def cexFlt : Image2D :=
  ⟨2, 2, fun i j => if i = 0 ∧ j = 0 then 7 else 1⟩

/-- The homogeneous transformation that translates by (5,5): it sends every
reference pixel outside the 2 by 2 floating image. -/
def cexT : Transform2D :=
  ⟨1, 0, 5, 0, 1, 5⟩

/-- Claim C1: whatever data-loss option is configured on the solver state
(in particular any of linear, soft_l1 or huber), the `_run_reconstruction`
step builds the inner `ADMMLinearSolver` with the data loss fixed to the
literal `"linear"`, so the configured option never reaches the ADMM inner
solve. -/
theorem admm_inner_data_loss_always_linear :
    ∀ (Abuild : ADMMSolverState → ((Vec → Vec) × (Vec → Vec) × Vec))
      (gradBuild : List ℚ → ((Vec → Vec) × (Vec → Vec)))
      (s : ADMMSolverState),
      (runRecConfig Abuild gradBuild s).data_loss = "linear" := by
  intro Abuild gradBuild s
  rfl

/-- Claim C10: whatever minimizer string is passed to the `ADMMSolver`
constructor (including L-BFGS-B), `_run_reconstruction` builds the inner
ADMM linear solver with the minimizer fixed to the literal `"lsmr"`, so the
configured minimizer never affects the inner x-update. -/
theorem admm_inner_minimizer_always_lsmr :
    ∀ (Abuild : ADMMSolverState → ((Vec → Vec) × (Vec → Vec) × Vec))
      (gradBuild : List ℚ → ((Vec → Vec) × (Vec → Vec)))
      (stks : List Stack) (recon : ReconVolume) (alpha : ℚ) (iter_max : ℕ)
      (minimizer data_loss : String) (verbose : Bool) (rho : ℚ) (iterations : ℕ),
      (runRecConfig Abuild gradBuild
        (ADMMSolver.init stks recon alpha iter_max minimizer data_loss verbose
          rho iterations)).minimizer = "lsmr" := by
  intro Abuild gradBuild stks recon alpha iter_max minimizer data_loss verbose rho iterations
  rfl

/-- Claim C8: the inner-solver arguments built on a run take the initial
iterate from the current reconstruction volume and set the intensity scale
to the maximum of that flattened initial iterate; the scale is part of the
immutable argument record built once at the start of the run, so it stays
fixed for the whole solve. -/
theorem x_scale_from_initial_iterate_max :
    ∀ (Abuild : ADMMSolverState → ((Vec → Vec) × (Vec → Vec) × Vec))
      (gradBuild : List ℚ → ((Vec → Vec) × (Vec → Vec)))
      (s : ADMMSolverState),
      (runRecConfig Abuild gradBuild s).x0 = get_x0 s
        ∧ (runRecConfig Abuild gradBuild s).x_scale = (get_x0 s).max? := by
  intro Abuild gradBuild s
  exact ⟨rfl, rfl⟩

/-- Claim C9: `_run_reconstruction` keeps the identity and the geometry of
the reconstruction volume object and only replaces its image content with
the inner solver's result. -/
theorem run_preserves_reconstruction_identity :
    ∀ (Abuild : ADMMSolverState → ((Vec → Vec) × (Vec → Vec) × Vec))
      (gradBuild : List ℚ → ((Vec → Vec) × (Vec → Vec)))
      (innerSolve : ADMMLinearSolverConfig → Vec)
      (s : ADMMSolverState),
      (run_reconstruction Abuild gradBuild innerSolve s).reconstruction.objId
          = s.reconstruction.objId
        ∧ (run_reconstruction Abuild gradBuild innerSolve s).reconstruction.grid
          = s.reconstruction.grid
        ∧ (run_reconstruction Abuild gradBuild innerSolve s).reconstruction.content
          = innerSolve (runRecConfig Abuild gradBuild s) := by
  intro Abuild gradBuild innerSolve s
  exact ⟨rfl, rfl, rfl⟩

/-- Claim C7: `compute_statistics` recomputes the data residual at the
current reconstruction volume, stores it in the statistics field, and
leaves the reconstruction volume (and every other state field) unchanged. -/
theorem compute_statistics_recomputes_residual_no_mutation :
    ∀ (A : Vec → Vec) (b : Vec) (s : ADMMSolverState),
      (compute_statistics A b s).reconstruction = s.reconstruction
        ∧ (compute_statistics A b s).residual_ell2
          = some (get_residual_ell2 A b s.reconstruction.content)
        ∧ compute_statistics A b s
          = { s with
              residual_ell2 := some (get_residual_ell2 A b s.reconstruction.content) } := by
  intro A b s
  exact ⟨rfl, rfl, rfl⟩

/-- Claim C4: `run` validates the configuration and geometry first: a slice
mask size differing from the slice data size fails with
`DimensionMismatchError`, a non-positive grid spacing fails with
`InvalidGeometryError`, and on every error path the outcome is independent
of the operator builders and of the inner solver, so no operator is
constructed before the failure. -/
theorem run_validates_before_building_operators :
    ∀ (Abuild : ADMMSolverState → ((Vec → Vec) × (Vec → Vec) × Vec))
      (gradBuild : List ℚ → ((Vec → Vec) × (Vec → Vec)))
      (innerSolve : ADMMLinearSolverConfig → Vec)
      (s : ADMMSolverState),
      (maskMismatch s = true →
        run Abuild gradBuild innerSolve s
          = Except.error SolverError.DimensionMismatchError)
      ∧ (maskMismatch s = false → spacingNonPositive s = true →
        run Abuild gradBuild innerSolve s
          = Except.error SolverError.InvalidGeometryError)
      ∧ (∀ e, validate s = some e →
          run Abuild gradBuild innerSolve s = Except.error e
          ∧ ∀ (Abuild₂ : ADMMSolverState → ((Vec → Vec) × (Vec → Vec) × Vec))
              (gradBuild₂ : List ℚ → ((Vec → Vec) × (Vec → Vec)))
              (innerSolve₂ : ADMMLinearSolverConfig → Vec),
              run Abuild gradBuild innerSolve s
                = run Abuild₂ gradBuild₂ innerSolve₂ s) := by
  intro Abuild gradBuild innerSolve s
  refine ⟨?_, ?_, ?_⟩
  · intro hmask
    unfold run validate
    rw [hmask]
    rfl
  · intro hmask hsp
    unfold run validate
    rw [hmask, hsp]
    rfl
  · intro e he
    constructor
    · unfold run
      rw [he]
    · intro Abuild₂ gradBuild₂ innerSolve₂
      unfold run
      rw [he]

/-- Claim C4, witness: on a state with a mask-size mismatch the run fails
with `DimensionMismatchError`, and on a state with zero spacing it fails
with `InvalidGeometryError`. -/
theorem run_validates_before_building_operators_witness :
    run cAbuild cGradBuild cInnerSolve cBadMaskState
        = Except.error SolverError.DimensionMismatchError
      ∧ run cAbuild cGradBuild cInnerSolve cBadSpacingState
        = Except.error SolverError.InvalidGeometryError :=
  ⟨(run_validates_before_building_operators cAbuild cGradBuild cInnerSolve
      cBadMaskState).1 (by decide),
   (run_validates_before_building_operators cAbuild cGradBuild cInnerSolve
      cBadSpacingState).2.1 (by decide) (by decide)⟩

/-- Claim C2: a run reads its initial iterate from the current
reconstruction volume and overwrites that volume with the solver result on
completion, so a second run (after changing alpha and the iteration cap)
warm-starts from the first run's output rather than from the original
initial volume. -/
theorem run_warm_starts_from_current_reconstruction :
    ∀ (Abuild : ADMMSolverState → ((Vec → Vec) × (Vec → Vec) × Vec))
      (gradBuild : List ℚ → ((Vec → Vec) × (Vec → Vec)))
      (innerSolve : ADMMLinearSolverConfig → Vec)
      (s : ADMMSolverState) (a' : ℚ) (i' : ℕ),
      validate s = none →
      validate (set_iter_max i' (set_alpha a'
        (run_reconstruction Abuild gradBuild innerSolve s))) = none →
      ∃ s₁ s₂,
        run Abuild gradBuild innerSolve s = Except.ok s₁
        ∧ run Abuild gradBuild innerSolve (set_iter_max i' (set_alpha a' s₁))
          = Except.ok s₂
        ∧ (runRecConfig Abuild gradBuild (set_iter_max i' (set_alpha a' s₁))).x0
          = s₁.reconstruction.content
        ∧ s₁.reconstruction.content = innerSolve (runRecConfig Abuild gradBuild s)
        ∧ s₂.reconstruction.content
          = innerSolve (runRecConfig Abuild gradBuild
              (set_iter_max i' (set_alpha a' s₁))) := by
  intro Abuild gradBuild innerSolve s a' i' h₁ h₂
  refine ⟨run_reconstruction Abuild gradBuild innerSolve s,
    run_reconstruction Abuild gradBuild innerSolve
      (set_iter_max i' (set_alpha a'
        (run_reconstruction Abuild gradBuild innerSolve s))),
    ?_, ?_, rfl, rfl, rfl⟩
  · unfold run
    rw [h₁]
  · unfold run
    rw [h₂]

/-- Claim C2, witness: the warm-start property instantiated at a concrete
valid state, builders and inner solver. -/
theorem run_warm_starts_from_current_reconstruction_witness :
    ∃ s₁ s₂,
      run cAbuild cGradBuild cInnerSolve cState = Except.ok s₁
      ∧ run cAbuild cGradBuild cInnerSolve (set_iter_max 5 (set_alpha 1 s₁))
        = Except.ok s₂
      ∧ (runRecConfig cAbuild cGradBuild (set_iter_max 5 (set_alpha 1 s₁))).x0
        = s₁.reconstruction.content
      ∧ s₁.reconstruction.content = cInnerSolve (runRecConfig cAbuild cGradBuild cState)
      ∧ s₂.reconstruction.content
        = cInnerSolve (runRecConfig cAbuild cGradBuild
            (set_iter_max 5 (set_alpha 1 s₁))) :=
  run_warm_starts_from_current_reconstruction cAbuild cGradBuild cInnerSolve
    cState 1 5 (by decide) (by decide)

/-- Summation by parts in one dimension: the forward difference with a zero
last channel is adjoint to the negative backward difference with the
matching boundary handling.  This is the per-axis core of the gradient
adjointness. -/
theorem sum_fd_mul (n : ℕ) (h : ℚ) (x z : ℕ → ℚ) :
    (∑ i in Finset.range n, (if i + 1 < n then (x (i + 1) - x i) / h else 0) * z i)
      = ∑ i in Finset.range n, x i *
          (((if 1 ≤ i then z (i - 1) else 0) - (if i + 1 < n then z i else 0)) / h) := by
  cases n with
  | zero => simp
  | succ m =>
    have hL : (∑ i in Finset.range (m + 1),
          (if i + 1 < m + 1 then (x (i + 1) - x i) / h else 0) * z i)
        = ∑ i in Finset.range m, (x (i + 1) - x i) / h * z i := by
      rw [Finset.sum_range_succ, if_neg (lt_irrefl (m + 1)), zero_mul, add_zero]
      refine Finset.sum_congr rfl (fun i hi => ?_)
      rw [if_pos (Nat.succ_lt_succ (Finset.mem_range.mp hi))]
    have hT1 : (∑ i in Finset.range (m + 1), x i * ((if 1 ≤ i then z (i - 1) else 0) / h))
        = ∑ i in Finset.range m, x (i + 1) * (z i / h) := by
      have hs := Finset.sum_range_succ'
        (fun i => x i * ((if 1 ≤ i then z (i - 1) else 0) / h)) m
      rw [hs, if_neg (by omega : ¬ 1 ≤ 0), zero_div, mul_zero, add_zero]
      refine Finset.sum_congr rfl (fun i hi => ?_)
      rw [if_pos (Nat.succ_le_succ (Nat.zero_le i)), Nat.succ_sub_one]
    have hT2 : (∑ i in Finset.range (m + 1), x i * ((if i + 1 < m + 1 then z i else 0) / h))
        = ∑ i in Finset.range m, x i * (z i / h) := by
      rw [Finset.sum_range_succ, if_neg (lt_irrefl (m + 1)), zero_div, mul_zero, add_zero]
      refine Finset.sum_congr rfl (fun i hi => ?_)
      rw [if_pos (Nat.succ_lt_succ (Finset.mem_range.mp hi))]
    calc (∑ i in Finset.range (m + 1),
            (if i + 1 < m + 1 then (x (i + 1) - x i) / h else 0) * z i)
        = ∑ i in Finset.range m, (x (i + 1) - x i) / h * z i := hL
      _ = ∑ i in Finset.range m, (x (i + 1) * (z i / h) - x i * (z i / h)) := by
            refine Finset.sum_congr rfl (fun i _ => ?_)
            ring
      _ = (∑ i in Finset.range m, x (i + 1) * (z i / h))
            - ∑ i in Finset.range m, x i * (z i / h) := Finset.sum_sub_distrib
      _ = (∑ i in Finset.range (m + 1), x i * ((if 1 ≤ i then z (i - 1) else 0) / h))
            - ∑ i in Finset.range (m + 1), x i * ((if i + 1 < m + 1 then z i else 0) / h) := by
            rw [hT1, hT2]
      _ = ∑ i in Finset.range (m + 1), (x i * ((if 1 ≤ i then z (i - 1) else 0) / h)
            - x i * ((if i + 1 < m + 1 then z i else 0) / h)) := Finset.sum_sub_distrib.symm
      _ = ∑ i in Finset.range (m + 1), x i *
            (((if 1 ≤ i then z (i - 1) else 0) - (if i + 1 < m + 1 then z i else 0)) / h) := by
            refine Finset.sum_congr rfl (fun i _ => ?_)
            ring

/-- The axis-1 channel satisfies the adjoint identity on triple sums. -/
theorem axis1_adjoint (n₁ n₂ n₃ : ℕ) (h₁ : ℚ) (x z : ℕ → ℕ → ℕ → ℚ) :
    tripleSum n₁ n₂ n₃ (fun i j k => grad1 n₁ h₁ x i j k * z i j k)
      = tripleSum n₁ n₂ n₃ (fun i j k => x i j k * grad1_adj n₁ h₁ z i j k) := by
  unfold tripleSum grad1 grad1_adj
  calc (∑ i in Finset.range n₁, ∑ j in Finset.range n₂, ∑ k in Finset.range n₃,
          (if i + 1 < n₁ then (x (i + 1) j k - x i j k) / h₁ else 0) * z i j k)
      = ∑ j in Finset.range n₂, ∑ i in Finset.range n₁, ∑ k in Finset.range n₃,
          (if i + 1 < n₁ then (x (i + 1) j k - x i j k) / h₁ else 0) * z i j k :=
        Finset.sum_comm
    _ = ∑ j in Finset.range n₂, ∑ k in Finset.range n₃, ∑ i in Finset.range n₁,
          (if i + 1 < n₁ then (x (i + 1) j k - x i j k) / h₁ else 0) * z i j k :=
        Finset.sum_congr rfl (fun j _ => Finset.sum_comm)
    _ = ∑ j in Finset.range n₂, ∑ k in Finset.range n₃, ∑ i in Finset.range n₁,
          x i j k * (((if 1 ≤ i then z (i - 1) j k else 0)
            - (if i + 1 < n₁ then z i j k else 0)) / h₁) :=
        Finset.sum_congr rfl (fun j _ => Finset.sum_congr rfl (fun k _ =>
          sum_fd_mul n₁ h₁ (fun i => x i j k) (fun i => z i j k)))
    _ = ∑ j in Finset.range n₂, ∑ i in Finset.range n₁, ∑ k in Finset.range n₃,
          x i j k * (((if 1 ≤ i then z (i - 1) j k else 0)
            - (if i + 1 < n₁ then z i j k else 0)) / h₁) :=
        Finset.sum_congr rfl (fun j _ => Finset.sum_comm)
    _ = ∑ i in Finset.range n₁, ∑ j in Finset.range n₂, ∑ k in Finset.range n₃,
          x i j k * (((if 1 ≤ i then z (i - 1) j k else 0)
            - (if i + 1 < n₁ then z i j k else 0)) / h₁) :=
        Finset.sum_comm

/-- The axis-2 channel satisfies the adjoint identity on triple sums. -/
theorem axis2_adjoint (n₁ n₂ n₃ : ℕ) (h₂ : ℚ) (x z : ℕ → ℕ → ℕ → ℚ) :
    tripleSum n₁ n₂ n₃ (fun i j k => grad2 n₂ h₂ x i j k * z i j k)
      = tripleSum n₁ n₂ n₃ (fun i j k => x i j k * grad2_adj n₂ h₂ z i j k) := by
  unfold tripleSum grad2 grad2_adj
  refine Finset.sum_congr rfl (fun i _ => ?_)
  calc (∑ j in Finset.range n₂, ∑ k in Finset.range n₃,
          (if j + 1 < n₂ then (x i (j + 1) k - x i j k) / h₂ else 0) * z i j k)
      = ∑ k in Finset.range n₃, ∑ j in Finset.range n₂,
          (if j + 1 < n₂ then (x i (j + 1) k - x i j k) / h₂ else 0) * z i j k :=
        Finset.sum_comm
    _ = ∑ k in Finset.range n₃, ∑ j in Finset.range n₂,
          x i j k * (((if 1 ≤ j then z i (j - 1) k else 0)
            - (if j + 1 < n₂ then z i j k else 0)) / h₂) :=
        Finset.sum_congr rfl (fun k _ =>
          sum_fd_mul n₂ h₂ (fun j => x i j k) (fun j => z i j k))
    _ = ∑ j in Finset.range n₂, ∑ k in Finset.range n₃,
          x i j k * (((if 1 ≤ j then z i (j - 1) k else 0)
            - (if j + 1 < n₂ then z i j k else 0)) / h₂) :=
        Finset.sum_comm

/-- The axis-3 channel satisfies the adjoint identity on triple sums. -/
theorem axis3_adjoint (n₁ n₂ n₃ : ℕ) (h₃ : ℚ) (x z : ℕ → ℕ → ℕ → ℚ) :
    tripleSum n₁ n₂ n₃ (fun i j k => grad3 n₃ h₃ x i j k * z i j k)
      = tripleSum n₁ n₂ n₃ (fun i j k => x i j k * grad3_adj n₃ h₃ z i j k) := by
  unfold tripleSum grad3 grad3_adj
  refine Finset.sum_congr rfl (fun i _ => Finset.sum_congr rfl (fun j _ => ?_))
  exact sum_fd_mul n₃ h₃ (fun k => x i j k) (fun k => z i j k)

/-- Claim C6: the discrete gradient operator and its adjoint are exact
adjoints: for every volume x and every gradient-space vector z the weighted
inner product of gradient(x) with z equals the weighted inner product of x
with gradient_adjoint(z), exactly (the rational embedding realizes the
machine-precision statement exactly), for any voxel-volume weight. -/
theorem gradient_adjoint_inner_product (n₁ n₂ n₃ : ℕ) (h₁ h₂ h₃ vol : ℚ)
    (x z₁ z₂ z₃ : ℕ → ℕ → ℕ → ℚ) :
    innerZ n₁ n₂ n₃ vol (gradient n₁ n₂ n₃ h₁ h₂ h₃ x) (z₁, z₂, z₃)
      = innerX n₁ n₂ n₃ vol x (gradient_adjoint n₁ n₂ n₃ h₁ h₂ h₃ z₁ z₂ z₃) := by
  unfold innerZ innerX gradient gradient_adjoint
  have hsplit : tripleSum n₁ n₂ n₃ (fun i j k => x i j k *
        (grad1_adj n₁ h₁ z₁ i j k + grad2_adj n₂ h₂ z₂ i j k + grad3_adj n₃ h₃ z₃ i j k))
      = tripleSum n₁ n₂ n₃ (fun i j k => x i j k * grad1_adj n₁ h₁ z₁ i j k)
        + tripleSum n₁ n₂ n₃ (fun i j k => x i j k * grad2_adj n₂ h₂ z₂ i j k)
        + tripleSum n₁ n₂ n₃ (fun i j k => x i j k * grad3_adj n₃ h₃ z₃ i j k) := by
    unfold tripleSum
    simp only [mul_add, Finset.sum_add_distrib]
  rw [hsplit, axis1_adjoint n₁ n₂ n₃ h₁ x z₁, axis2_adjoint n₁ n₂ n₃ h₂ x z₂,
    axis3_adjoint n₁ n₂ n₃ h₃ x z₃]

/-- Clamping an index into a non-empty axis stays inside the axis. -/
theorem clampIdx_lt (n : ℕ) (z : ℤ) (hn : 0 < n) : clampIdx n z < n := by
  unfold clampIdx
  split
  · exact hn
  · next hno => omega

/-- Claim C5, amended: in the executed fast order-0 path every output pixel
reads the floating image at the coordinate-wise clamped position: an
out-of-range rounded coordinate is replaced by index 0, so a position
outside the floating image's valid region contributes the intensity at the
clamped pixel (pixel (0,0) when both coordinates are out of range), never
the padding value. -/
theorem resampling_fast_reads_clamped_pixel (reference floating : Image2D)
    (T : Transform2D) (i j : ℕ) (hc : 0 < floating.cols) :
    resampling_order0_fast reference floating T i j
      = floating.px
          (clampIdx floating.rows (npRound (T.a * (i : ℚ) + T.b * (j : ℚ) + T.c)))
          (clampIdx floating.cols (npRound (T.d * (i : ℚ) + T.e * (j : ℚ) + T.f))) := by
  have hcc := clampIdx_lt floating.cols
    (npRound (T.d * (i : ℚ) + T.e * (j : ℚ) + T.f)) hc
  simp only [resampling_order0_fast, ravel]
  rw [Nat.add_mul_div_right _ _ hc, Nat.div_eq_of_lt hcc, zero_add,
    Nat.add_mul_mod_self_right, Nat.mod_eq_of_lt hcc]

/-- Claim C5, counterexample: with the identity rotation and translation
(5,5), reference pixel (0,0) maps to position (5,5), outside the 2 by 2
floating image in both coordinates, yet the warped output is the floating
image's intensity 7 at pixel (0,0) rather than the padding value zero. -/
theorem resampling_out_of_region_reads_pixel00 :
    ((cexFlt.rows : ℤ) ≤ npRound (cexT.a * 0 + cexT.b * 0 + cexT.c))
      ∧ ((cexFlt.cols : ℤ) ≤ npRound (cexT.d * 0 + cexT.e * 0 + cexT.f))
      ∧ resampling_order0_fast cexRef cexFlt cexT 0 0 = 7
      ∧ (7 : ℚ) ≠ 0 := by
  have hp0 : cexT.a * (0 : ℚ) + cexT.b * (0 : ℚ) + cexT.c = 5 := by
    norm_num [cexT]
  have hp1 : cexT.d * (0 : ℚ) + cexT.e * (0 : ℚ) + cexT.f = 5 := by
    norm_num [cexT]
  have hpc : cexT.a * ((0 : ℕ) : ℚ) + cexT.b * ((0 : ℕ) : ℚ) + cexT.c = 5 := by
    norm_num [cexT]
  have hpd : cexT.d * ((0 : ℕ) : ℚ) + cexT.e * ((0 : ℕ) : ℚ) + cexT.f = 5 := by
    norm_num [cexT]
  refine ⟨?_, ?_, ?_, by decide⟩
  · rw [hp0]
    decide
  · rw [hp1]
    decide
  · simp only [resampling_order0_fast]
    rw [hpc, hpd]
    decide

/-- Claim C5, witness for the amended statement at the concrete images and
transformation of the counterexample. -/
theorem resampling_fast_reads_clamped_pixel_witness :
    resampling_order0_fast cexRef cexFlt cexT 0 0
      = cexFlt.px
          (clampIdx cexFlt.rows (npRound (cexT.a * ((0 : ℕ) : ℚ) + cexT.b * ((0 : ℕ) : ℚ) + cexT.c)))
          (clampIdx cexFlt.cols (npRound (cexT.d * ((0 : ℕ) : ℚ) + cexT.e * ((0 : ℕ) : ℚ) + cexT.f))) :=
  resampling_fast_reads_clamped_pixel cexRef cexFlt cexT 0 0 (by decide)

/-- The data of a packed character list is that list. -/
theorem data_mk (l : List Char) : (String.mk l).data = l :=
  rfl

/-- The dot replacement leaves a dot-free string unchanged. -/
theorem map_replDot_of_noDot (m : String) (h : noDot m) :
    m.data.map (fun c => if c = '.' then 'p' else c) = m.data := by
  have hc : ∀ c ∈ m.data, (if c = '.' then 'p' else c) = c := by
    intro c hcm
    refine if_neg (fun hdot => ?_)
    exact h (hdot ▸ hcm)
  rw [List.map_congr_left hc, List.map_id']

/-- Claim C3, amended: the configuration string depends only on the encoded
parameters, so equal parameter sets give equal strings; it is NOT distinct
for every pair of differing states, because the final dot-to-p replacement
can merge two minimizer strings.  Distinctness does hold for two states
that differ exactly in the minimizer when both minimizer strings are free
of dots. -/
theorem filename_stable_and_distinct_on_dotfree :
    (∀ (s t : ADMMSolverState) (pre : String),
        s.stacks'.length = t.stacks'.length → s.minimizer = t.minimizer →
        s.alpha = t.alpha → s.iter_max = t.iter_max → s.rho = t.rho →
        s.iterations = t.iterations →
        get_setting_specific_filename s pre = get_setting_specific_filename t pre)
    ∧ (∀ (s t : ADMMSolverState) (pre : String),
        s.stacks'.length = t.stacks'.length →
        s.alpha = t.alpha → s.iter_max = t.iter_max → s.rho = t.rho →
        s.iterations = t.iterations →
        noDot s.minimizer → noDot t.minimizer → s.minimizer ≠ t.minimizer →
        get_setting_specific_filename s pre ≠ get_setting_specific_filename t pre) := by
  constructor
  · intro s t pre h1 h2 h3 h4 h5 h6
    unfold get_setting_specific_filename
    rw [h1, h2, h3, h4, h5, h6]
  · intro s t pre h1 h3 h4 h5 h6 hd1 hd2 hne heq
    have hdata := congrArg String.data heq
    simp only [get_setting_specific_filename, pyReplaceDotP, data_mk,
      String.data_append, List.map_append, List.append_assoc] at hdata
    rw [h1, h3, h4, h5, h6] at hdata
    replace hdata := List.append_cancel_left hdata
    replace hdata := List.append_cancel_left hdata
    replace hdata := List.append_cancel_left hdata
    replace hdata := List.append_cancel_left hdata
    replace hdata := List.append_cancel_left hdata
    replace hdata := List.append_cancel_right hdata
    rw [map_replDot_of_noDot s.minimizer hd1,
      map_replDot_of_noDot t.minimizer hd2] at hdata
    exact hne (congrArg String.mk hdata)

/-- Claim C3, counterexample: two solver states that differ in the
minimizer parameter (a dot versus the letter p) receive the same
configuration string, because the final dot-to-p replacement merges them;
so the encoding is not distinct for every pair of differing states. -/
theorem filename_collision_counterexample :
    get_setting_specific_filename fnameState1 "SRR_"
        = get_setting_specific_filename fnameState2 "SRR_"
      ∧ fnameState1 ≠ fnameState2
      ∧ fnameState1.minimizer ≠ fnameState2.minimizer :=
  ⟨by decide, by decide, by decide⟩

/-- Claim C3, witness: stability across a pair of states with equal
parameter sets (differing only in fields the encoding does not cover), and
distinctness across a pair differing exactly in a dot-free minimizer. -/
theorem filename_stable_and_distinct_on_dotfree_witness :
    get_setting_specific_filename cState "SRR_"
        = get_setting_specific_filename fnameState4 "SRR_"
      ∧ get_setting_specific_filename cState "SRR_"
        ≠ get_setting_specific_filename fnameState3 "SRR_" :=
  ⟨filename_stable_and_distinct_on_dotfree.1 cState fnameState4 "SRR_"
      rfl rfl rfl rfl rfl rfl,
   filename_stable_and_distinct_on_dotfree.2 cState fnameState3 "SRR_"
      rfl rfl rfl rfl rfl (by decide) (by decide) (by decide)⟩

end NiftyMIC
